import Mathlib

/-!
Formal model of the npm_calmarendian_date package.

Shallow embedding of the code in src/npm_calmarendian_date/:
calmarendian_date.py (the CalmarendianDate class) and c_date_config.py
(the CDateConfig constants and date-string patterns).

calmarendian_date.py imports date_elements.py (the element value types
GrandCycle, CycleInGrandCycle, Season, Week, Day), exceptions.py
(CalmarendianDateError) and string_conversions.py (DateString), none of
which are part of the source tree examined; where their behaviour is
needed it is modelled from the specification and said so in the doc
comment of the corresponding definition.

Python integers are modelled as Int.  Python floor division and the
floor() of a true division are Int.ediv (they agree for the positive
divisors used here).  The two float divisions in the source (by
DAYS_per_GRAND_CYCLE and by DAYS_per_CYCLE) are modelled by exact
rational floors; for DAYS_per_CYCLE = 1718101 / 700 the float estimate
can differ from the exact floor only by rounding the starting point of
the subsequent forward scan down by one, which the scan absorbs, so the
function's value is unchanged on the reachable inputs.
-/

namespace Calmarendian

/-- MIN_ADR from CDateConfig (c_date_config.py). -/
def MIN_ADR : Int := -1718100

/-- MAX_ADR from CDateConfig (c_date_config.py). -/
def MAX_ADR : Int := 170091999

/-- DAYS_per_GRAND_CYCLE from CDateConfig (c_date_config.py). -/
def DAYS_per_GRAND_CYCLE : Int := 1718101

/-- Modelled from the spec: the error taxonomy of exceptions.py, which is
not in the source tree examined (calmarendian_date.py raises the single
class CalmarendianDateError with distinguishing messages).  The spec's
error taxonomy names RangeError, ConversionError, FormatError and
InvariantViolation; the messages raised in calmarendian_date.py are
mapped onto those four. -/
inductive CalmarendianDateError
  | rangeError
  | conversionError
  | formatError
  | invariantViolation
  deriving DecidableEq

/-- The EraMarker enumeration from calmarendian_date.py. -/
inductive EraMarker
  | BZ
  | BH
  | CE
  deriving DecidableEq

/-- The Python enum member name (EraMarker.name in the source). -/
def EraMarker.label : EraMarker → String
  | .BZ => "BZ"
  | .BH => "BH"
  | .CE => "CE"

/-- The Python enum member value (EraMarker.value in the source). -/
def EraMarker.longLabel : EraMarker → String
  | .BZ => "Before Time Zero"
  | .BH => "Before History"
  | .CE => "Current Era"

/-- Modelled from the spec: date_elements.py is not in the source tree
examined.  The spec fixes a grand cycle at 700 cycles totalling exactly
1718101 days, a cycle at seven seasons of 350 days each plus a short
irregular terminal week (week 51) whose length varies per cycle, and the
date-string day field at up to 8.  The terminal-week rule used here --
4 days per cycle, 7 days in every seventh cycle, 8 days in cycle 700 --
is the rule of the Calmarendian calendar that makes the 700 cycle
lengths (2450 regular days plus the terminal week) sum to exactly
1718101 days, as the spec requires. -/
def festivalDays (c : Int) : Int :=
  if c = 700 then 8 else if c % 7 = 0 then 7 else 4

/-- Modelled from the spec: the GrandCycle element type of
date_elements.py. -/
structure GrandCycle where
  number : Int
  deriving DecidableEq

/-- Per the spec: total days in all grand cycles strictly before this
one, (number - 1) * 1718101. -/
def GrandCycle.days_prior (g : GrandCycle) : Int :=
  (g.number - 1) * DAYS_per_GRAND_CYCLE

/-- Modelled from the spec: the validating constructor of GrandCycle.
The spec documents no numeric bound other than what the ADR range
implies, which is grand cycles 0 through 99. -/
def GrandCycle.ofNum (n : Int) : Option GrandCycle :=
  if 0 ≤ n ∧ n ≤ 99 then some ⟨n⟩ else none

/-- Modelled from the spec: the CycleInGrandCycle element type of
date_elements.py (integer 1..700 identifying a cycle within its grand
cycle). -/
structure CycleInGrandCycle where
  number : Int
  deriving DecidableEq

/-- Per the spec: cumulative days in all prior cycles of the same grand
cycle.  With the terminal-week rule above, each prior cycle contributes
2454 days (2450 regular days plus the 4 base terminal-week days) and
each prior seventh cycle 3 extra days. -/
def CycleInGrandCycle.days_prior (c : CycleInGrandCycle) : Int :=
  2454 * (c.number - 1) + 3 * ((c.number - 1) / 7)

/-- Modelled from the spec: validating constructor, domain 1..700. -/
def CycleInGrandCycle.ofNum (n : Int) : Option CycleInGrandCycle :=
  if 1 ≤ n ∧ n ≤ 700 then some ⟨n⟩ else none

/-- Modelled from the spec: the Season element type of
date_elements.py (integer 1..7). -/
structure Season where
  number : Int
  deriving DecidableEq

/-- Per the spec: cumulative days of prior seasons within the cycle,
350 days each (the documented truncation affects only the last season's
own length, never the full seasons prior to a given one). -/
def Season.days_prior (s : Season) : Int := 350 * (s.number - 1)

/-- Modelled from the spec: validating constructor, domain 1..7. -/
def Season.ofNum (n : Int) : Option Season :=
  if 1 ≤ n ∧ n ≤ 7 then some ⟨n⟩ else none

/-- Modelled from the spec: the season name table of date_elements.py is
not in the source tree examined; the season label is modelled as an
abstract name determined by the season number, which is all the
rendering claims depend on. -/
def Season.seasonLabel (s : Season) : String :=
  "Season" ++ toString s.number

/-- Modelled from the spec: the Week element type of date_elements.py
(integer 1..51, associated with its Season; week 51 is the irregular
terminal week). -/
structure Week where
  number : Int
  deriving DecidableEq

/-- Per the spec: days accumulated by the prior (7-day) weeks. -/
def Week.days_prior (w : Week) : Int := 7 * (w.number - 1)

/-- Modelled from the spec: validating constructor.  Weeks 1..50 are the
regular weeks of any season; week 51 is the terminal week, which exists
only in the last (seventh) season of the cycle. -/
def Week.ofNum (n : Int) (s : Season) : Option Week :=
  if (1 ≤ n ∧ n ≤ 50) ∨ (n = 51 ∧ s.number = 7) then some ⟨n⟩ else none

/-- Modelled from the spec: the Day element type of date_elements.py
(integer 1..7 for ordinary weeks; in the terminal week 51 the upper
bound depends on the owning cycle).  The festival_week flag records the
week context the Python object keeps as a reference, used to pick
ordinary versus terminal day naming. -/
structure Day where
  number : Int
  festival_week : Bool
  deriving DecidableEq

/-- The context-dependent upper bound of the day number: 7 in an
ordinary week, the cycle's terminal-week length in week 51. -/
def dayUpperBound (w : Week) (c : CycleInGrandCycle) : Int :=
  if w.number = 51 then festivalDays c.number else 7

/-- Modelled from the spec: validating constructor of Day. -/
def Day.ofNum (n : Int) (w : Week) (c : CycleInGrandCycle) : Option Day :=
  if 1 ≤ n ∧ n ≤ dayUpperBound w c then some ⟨n, decide (w.number = 51)⟩
  else none

/-- Modelled from the spec: the weekday / terminal-week name tables of
date_elements.py are not in the source tree examined; the labels are
modelled as abstract names determined by the day number and the week
context (7 named weekdays, distinct terminal names), which is all the
rendering claims depend on.  This is day.name() in the source. -/
def Day.dayLabel (d : Day) : String :=
  if d.festival_week then ("Festivalday" ++ toString d.number)
  else ("Dayname" ++ toString d.number)

/-- As dayLabel, for day.short_name() in the source. -/
def Day.dayShortLabel (d : Day) : String :=
  if d.festival_week then ("Fd" ++ toString d.number)
  else ("Dn" ++ toString d.number)

/-- The while loop of CalmarendianDate.cycle_decode:
while cycle < 700 and CycleInGrandCycle(cycle + 1).days_prior() < days:
cycle += 1.  The fuel argument bounds the recursion; for the residues
the decomposition feeds in, the loop runs at most 700 iterations, so
fuel 701 never runs out. -/
def cycleDecodeAux (days : Int) : Int → Nat → Int
  | c, 0 => c
  | c, fuel + 1 =>
    if c < 700 ∧ CycleInGrandCycle.days_prior ⟨c + 1⟩ < days then
      cycleDecodeAux days (c + 1) fuel
    else c

/-- CalmarendianDate.cycle_decode from calmarendian_date.py.  The
starting estimate floor(days / DAYS_per_CYCLE), a float division by
1718101 / 700 in the source, is modelled by the exact rational floor
ediv (700 * days) 1718101 (see the module comment). -/
def cycle_decode (days : Int) : Int :=
  cycleDecodeAux days ((700 * days) / 1718101) 701

/-- The cycle scan exactly as the specification sentence words it:
increment the cycle while the NEXT cycle's days_prior() is still less
than OR EQUAL TO the residue (the source uses a strict comparison).
Introduced only to compare the spec's wording with cycle_decode. -/
def cycleScanLeAux (days : Int) : Int → Nat → Int
  | c, 0 => c
  | c, fuel + 1 =>
    if c < 700 ∧ CycleInGrandCycle.days_prior ⟨c + 1⟩ ≤ days then
      cycleScanLeAux days (c + 1) fuel
    else c

/-- The estimate-then-scan procedure with the spec's non-strict
comparison, to be compared with cycle_decode. -/
def cycleScanLe (days : Int) : Int :=
  cycleScanLeAux days ((700 * days) / 1718101) 701

/-- The grand cycle number computed by elements_from_adr:
floor((adr - 1) / DAYS_per_GRAND_CYCLE) + 1. -/
def gcNum (adr : Int) : Int :=
  (adr - 1) / DAYS_per_GRAND_CYCLE + 1

/-- The residue after the grand-cycle days are removed:
residue -= (grand_cycle.number - 1) * DAYS_per_GRAND_CYCLE. -/
def r1Of (adr : Int) : Int :=
  adr - (gcNum adr - 1) * DAYS_per_GRAND_CYCLE

/-- The cycle number computed by elements_from_adr. -/
def cNum (adr : Int) : Int := cycle_decode (r1Of adr)

/-- The residue after the cycle's days are removed:
residue -= cycle.days_prior(). -/
def r2Of (adr : Int) : Int :=
  r1Of adr - CycleInGrandCycle.days_prior ⟨cNum adr⟩

/-- The season number computed by elements_from_adr:
min(floor((residue - 1) / 350) + 1, 7). -/
def sNum (adr : Int) : Int :=
  min ((r2Of adr - 1) / 350 + 1) 7

/-- The residue after the season's days are removed:
residue -= season.days_prior(). -/
def r3Of (adr : Int) : Int :=
  r2Of adr - Season.days_prior ⟨sNum adr⟩

/-- The week number computed by elements_from_adr:
min(floor((residue - 1) / 7) + 1, 51). -/
def wNum (adr : Int) : Int :=
  min ((r3Of adr - 1) / 7 + 1) 51

/-- The final residue, which becomes the day number:
residue -= week.days_prior(). -/
def r4Of (adr : Int) : Int :=
  r3Of adr - Week.days_prior ⟨wNum adr⟩

/-- CalmarendianDate.elements_from_adr from calmarendian_date.py: the
greedy hierarchical peeling of an absolute day reference into the five
date elements, each built through its validating constructor (a
constructor failure in Python raises; here the chain returns none). -/
def elements_from_adr (adr : Int) :
    Option (GrandCycle × CycleInGrandCycle × Season × Week × Day) :=
  Option.bind (GrandCycle.ofNum (gcNum adr)) fun grand_cycle =>
  Option.bind (CycleInGrandCycle.ofNum (cNum adr)) fun cycle =>
  Option.bind (Season.ofNum (sNum adr)) fun season =>
  Option.bind (Week.ofNum (wNum adr) season) fun week =>
  Option.bind (Day.ofNum (r4Of adr) week cycle) fun day =>
  some (grand_cycle, cycle, season, week, day)

/-- The CalmarendianDate object: the absolute day reference together
with the five date element objects the constructor stores. -/
structure CalmarendianDate where
  adr : Int
  grand_cycle : GrandCycle
  cycle : CycleInGrandCycle
  season : Season
  week : Week
  day : Day
  deriving DecidableEq

/-- The Python values the adr property setter can receive.  The setter
first coerces with int(): an int passes through, a float is truncated
toward zero, a numeric string is parsed.  (Other Python types, which
int() rejects with a TypeError, are outside the model.) -/
inductive PyValue
  | int (n : Int)
  | float (q : ℚ)
  | str (s : String)

/-- Python's int() coercion as the adr setter uses it: int passes
through, float truncates toward zero, a string parses as an optionally
signed decimal integer or raises ValueError (String.toInt? is used for
the string case; Python additionally strips whitespace, which no claim
depends on). -/
def pyInt : PyValue → Except CalmarendianDateError Int
  | .int n => .ok n
  | .float q => .ok (if q < 0 then ⌈q⌉ else ⌊q⌋)
  | .str s =>
    match s.toInt? with
    | some n => .ok n
    | none => .error .conversionError

/-- The remainder of CalmarendianDate.__init__ once int() conversion
has produced an integer: the setter's range check, then derivation of
the five elements with elements_from_adr.  An element validation
failure during decomposition is the spec's InvariantViolation (an
engine bug, not bad input). -/
def fromAdr (n : Int) : Except CalmarendianDateError CalmarendianDate :=
  if n < MIN_ADR ∨ MAX_ADR < n then .error .rangeError
  else
    match elements_from_adr n with
    | some (g, c, s, w, d) => .ok ⟨n, g, c, s, w, d⟩
    | none => .error .invariantViolation

/-- CalmarendianDate.__init__: set the adr through the validating
setter (int() conversion plus range check), then derive the five
elements. -/
def CalmarendianDate.fromValue (v : PyValue) :
    Except CalmarendianDateError CalmarendianDate :=
  match pyInt v with
  | .error e => .error e
  | .ok n => fromAdr n

/-- The public adr property setter applied to an already constructed
date (date.adr = value in Python): coerce, range-check, and overwrite
the stored absolute day reference.  It mutates only
_absolute_day_reference; the five stored elements are left as they
were. -/
def CalmarendianDate.setAdr (dt : CalmarendianDate) (v : PyValue) :
    Except CalmarendianDateError CalmarendianDate :=
  match pyInt v with
  | .error e => .error e
  | .ok n =>
    if n < MIN_ADR ∨ MAX_ADR < n then .error .rangeError
    else .ok { dt with adr := n }

/-- CalmarendianDate.from_objects: store the five given element objects
verbatim and set the adr, through the validating setter, to the sum of
the elements' days_prior() values plus the day number. -/
def CalmarendianDate.from_objects (g : GrandCycle) (c : CycleInGrandCycle)
    (s : Season) (w : Week) (d : Day) :
    Except CalmarendianDateError CalmarendianDate :=
  let a := g.days_prior + c.days_prior + s.days_prior + w.days_prior + d.number
  if a < MIN_ADR ∨ MAX_ADR < a then .error .rangeError
  else .ok ⟨a, g, c, s, w, d⟩

/-- CalmarendianDate.absolute_cycle_ref from calmarendian_date.py. -/
def CalmarendianDate.absolute_cycle_ref (dt : CalmarendianDate) :
    Int × EraMarker :=
  let acr := |(dt.grand_cycle.number - 1) * 700 + dt.cycle.number|
  (acr,
    if dt.grand_cycle.number ≤ 0 then EraMarker.BZ
    else if 1 ≤ acr ∧ acr ≤ 500 then EraMarker.BH
    else EraMarker.CE)

/-- CalmarendianDate.__eq__: equality is comparison of the two absolute
day references. -/
def CalmarendianDate.pyEq (d1 d2 : CalmarendianDate) : Bool :=
  d1.adr == d2.adr

/-- CalmarendianDate.__lt__: ordering is comparison of the two absolute
day references. -/
def CalmarendianDate.pyLt (d1 d2 : CalmarendianDate) : Bool :=
  decide (d1.adr < d2.adr)

/-- Left-pad a string to the given width with the given fill character,
as the zero-padded fields of the Python format strings do. -/
def padl (w : Nat) (fill : Char) (s : String) : String :=
  ⟨List.replicate (w - s.length) fill ++ s.data⟩

/-- CalmarendianDate.grand_cycle_notation: the GG-CCC-S-WW-D date
string, grand cycle zero-padded to 2 digits, cycle to 3, week to 2. -/
def gcnDateString (dt : CalmarendianDate) : String :=
  padl 2 '0' (toString dt.grand_cycle.number) ++ "-" ++
    padl 3 '0' (toString dt.cycle.number) ++ "-" ++
    toString dt.season.number ++ "-" ++
    padl 2 '0' (toString dt.week.number) ++ "-" ++
    toString dt.day.number

/-- The era-marker suffix computation shared by the renderers of
calmarendian_date.py: uppercase a supplied era_marker argument, then
append a marker when the argument asks for CE (always), asks for BH and
the date is BH, or the date is Before Time Zero; verbose mode spells
the marker out. -/
def eraSuffix (em : EraMarker) (era_marker : Option String)
    (verbose : Bool) : String :=
  let up := era_marker.map String.toUpper
  if up = some ("CE") ∨ (up = some ("BH") ∧ em = EraMarker.BH) ∨
      em = EraMarker.BZ then
    (" " ++ (if verbose then em.longLabel else em.label))
  else ("")

/-- CalmarendianDate.colloquial_date from calmarendian_date.py. -/
def CalmarendianDate.colloquial_date (dt : CalmarendianDate)
    (era_marker : Option String) (verbose : Bool) : String :=
  let first_separator := if verbose then (" of") else (",")
  let acr := (dt.absolute_cycle_ref).1
  let em := (dt.absolute_cycle_ref).2
  let eraStr := eraSuffix em era_marker verbose
  if dt.week.number = 51 then
    (if verbose then dt.day.dayLabel else dt.day.dayShortLabel) ++
      " of " ++ toString acr ++ eraStr
  else
    dt.day.dayLabel ++ first_separator ++ " Week " ++
      toString dt.week.number ++ " of " ++ dt.season.seasonLabel ++
      " " ++ toString acr ++ eraStr

/-- Whether an Except result is a success (a Python call that did not
raise). -/
def okBool {ε α : Type} : Except ε α → Bool
  | .ok _ => true
  | .error _ => false

/-- A digit character 0-9, as the character class [0-9] of the CSN
pattern in c_date_config.py. -/
def isD09 (ch : Char) : Bool := decide ('0' ≤ ch) && decide (ch ≤ '9')

/-- The character class [1-9]. -/
def isD19 (ch : Char) : Bool := decide ('1' ≤ ch) && decide (ch ≤ '9')

/-- The character class [1-7]. -/
def isD17 (ch : Char) : Bool := decide ('1' ≤ ch) && decide (ch ≤ '7')

/-- The character class [0-5]. -/
def isD05 (ch : Char) : Bool := decide ('0' ≤ ch) && decide (ch ≤ '5')

/-- The character class [1-8]. -/
def isD18 (ch : Char) : Bool := decide ('1' ≤ ch) && decide (ch ≤ '8')

/-- The case-insensitive era token alternatives (BZ|BH|CE) of the CSN
pattern. -/
def eraPair (a b : Char) : Bool :=
  ((a == 'B' || a == 'b') &&
    ((b == 'Z' || b == 'z') || (b == 'H' || b == 'h'))) ||
  ((a == 'C' || a == 'c') && (b == 'E' || b == 'e'))

/-- The tail of the CSN pattern after the day digit: zero or more
spaces, then an optional era token, then the end of the string
(the regex fragment [ ]*(BZ|BH|CE)?$; the era tokens contain no space,
so eating spaces greedily is exact). -/
def csnEnd : List Char → Bool
  | [] => true
  | ' ' :: rest => csnEnd rest
  | [a, b] => eraPair a b
  | _ => false

/-- The CSN pattern from the season field on: the regex fragment
([1-7])-([0-5][0-9])-([1-8]) followed by csnEnd.  The list starts with
the season digit; the hyphen before the season is consumed by the
caller. -/
def csnTailFromSeason : List Char → Bool
  | s :: h1 :: w1 :: w2 :: h2 :: d :: rest =>
    isD17 s && (h1 == '-') && isD05 w1 && isD09 w2 && (h2 == '-') &&
      isD18 d && csnEnd rest
  | _ => false

/-- CSN_DATE_STRING_RE from c_date_config.py, compiled by hand:
the anchored pattern ([1-9]?[0-9]{3})-([1-7])-([0-5][0-9])-([1-8])
[ ]*(BZ|BH|CE)? with IGNORECASE.  The ACR group is three digits, or
four digits whose first is 1-9: the two branches below are the two ways
the optional [1-9]? can match, told apart by whether the fourth
character is the hyphen ending the ACR field (a digit is never the
hyphen). -/
def csnMatch : List Char → Bool
  | a :: b :: c :: d :: rest =>
    if d = '-' then
      isD09 a && isD09 b && isD09 c && csnTailFromSeason rest
    else
      (match rest with
       | e :: rest2 =>
         (e == '-') && isD19 a && isD09 b && isD09 c && isD09 d &&
           csnTailFromSeason rest2
       | [] => false)
  | _ => false

/-! Supporting lemmas: the cycle scan finds the containing cycle. -/

/-- Binding a present optional value applies the continuation. -/
theorem optBind_some {α β : Type} (a : α) (f : α → Option β) :
    Option.bind (some a) f = f a := rfl

/-- days_prior of a cycle given by its number, spelled out. -/
theorem cycle_days_prior_mk (n : Int) :
    CycleInGrandCycle.days_prior ⟨n⟩ = 2454 * (n - 1) + 3 * ((n - 1) / 7) := rfl

/-- The terminal week of any cycle has 4, 7 or 8 days. -/
theorem festivalDays_cases (c : Int) :
    festivalDays c = 4 ∨ festivalDays c = 7 ∨ festivalDays c = 8 := by
  unfold festivalDays
  split_ifs <;> simp

/-- Invariant of the cycle_decode while loop: started at a cycle whose
days_prior is below the residue and given enough fuel, the scan stops at
a cycle in range whose days_prior is below the residue, and (unless it
hits the 700 cap) the next cycle's days_prior reaches the residue. -/
theorem cycleDecodeAux_spec (days : Int) :
    ∀ (fuel : Nat) (c : Int), 0 ≤ c → c ≤ 700 →
      CycleInGrandCycle.days_prior ⟨c⟩ < days →
      (700 : Int) ≤ (fuel : Int) + c →
      c ≤ cycleDecodeAux days c fuel ∧
      cycleDecodeAux days c fuel ≤ 700 ∧
      CycleInGrandCycle.days_prior ⟨cycleDecodeAux days c fuel⟩ < days ∧
      (cycleDecodeAux days c fuel < 700 →
        days ≤ CycleInGrandCycle.days_prior ⟨cycleDecodeAux days c fuel⟩ +
          2450 + festivalDays (cycleDecodeAux days c fuel)) := by
  intro fuel
  induction fuel with
  | zero =>
    intro c h0 h700 hdp hfuel
    have hc : c = 700 := by
      simp only [Nat.cast_zero] at hfuel
      omega
    simp only [cycleDecodeAux]
    exact ⟨le_refl c, by omega, hdp, by omega⟩
  | succ n ih =>
    intro c h0 h700 hdp hfuel
    by_cases hcond : c < 700 ∧ CycleInGrandCycle.days_prior ⟨c + 1⟩ < days
    · have heq : cycleDecodeAux days c (n + 1) = cycleDecodeAux days (c + 1) n := by
        simp only [cycleDecodeAux, if_pos hcond]
      rw [heq]
      have hrec := ih (c + 1) (by omega) (by omega) hcond.2
        (by push_cast at hfuel ⊢; omega)
      exact ⟨by omega, hrec.2.1, hrec.2.2.1, hrec.2.2.2⟩
    · have heq : cycleDecodeAux days c (n + 1) = c := by
        simp only [cycleDecodeAux, if_neg hcond]
      rw [heq]
      refine ⟨le_refl c, h700, hdp, fun hlt => ?_⟩
      push_neg at hcond
      have hnext : days ≤ 2454 * (c + 1 - 1) + 3 * ((c + 1 - 1) / 7) := by
        rw [← cycle_days_prior_mk]
        exact hcond hlt
      rw [cycle_days_prior_mk] at hdp ⊢
      unfold festivalDays
      split_ifs <;> omega

/-- cycle_decode, on any residue a grand cycle can hold, returns the
cycle containing the residual day: days_prior of the returned cycle is
below the residue, and the residue does not exceed days_prior plus the
cycle's own length (2450 regular days plus its terminal week). -/
theorem cycle_decode_containing (days : Int) (h1 : 1 ≤ days)
    (h2 : days ≤ 1718101) :
    1 ≤ cycle_decode days ∧ cycle_decode days ≤ 700 ∧
    CycleInGrandCycle.days_prior ⟨cycle_decode days⟩ < days ∧
    days ≤ CycleInGrandCycle.days_prior ⟨cycle_decode days⟩ + 2450 +
      festivalDays (cycle_decode days) := by
  have ha : 0 ≤ 700 * days / 1718101 := by omega
  have hb : 700 * days / 1718101 ≤ 700 := by omega
  have hc : CycleInGrandCycle.days_prior ⟨700 * days / 1718101⟩ < days := by
    rw [cycle_days_prior_mk]
    omega
  have H := cycleDecodeAux_spec days 701 (700 * days / 1718101)
    ha hb hc (by push_cast; omega)
  unfold cycle_decode
  obtain ⟨hle, h700, hdp, himp⟩ := H
  rw [cycle_days_prior_mk] at hdp
  refine ⟨?_, h700, by rw [cycle_days_prior_mk]; exact hdp, ?_⟩
  · by_cases hlt : cycleDecodeAux days (700 * days / 1718101) 701 < 700
    · have hup := himp hlt
      rw [cycle_days_prior_mk] at hup
      unfold festivalDays at hup
      split_ifs at hup <;> omega
    · omega
  · by_cases hlt : cycleDecodeAux days (700 * days / 1718101) 701 < 700
    · exact himp hlt
    · have h700' : cycleDecodeAux days (700 * days / 1718101) 701 = 700 := by
        omega
      rw [h700', cycle_days_prior_mk]
      have hF : festivalDays 700 = 8 := rfl
      rw [hF]
      omega

/-! Supporting lemmas: every in-range ADR decomposes successfully. -/

/-- The grand cycle number of an in-range ADR is between 0 and 99. -/
theorem gcNum_bounds (adr : Int) (h1 : MIN_ADR ≤ adr) (h2 : adr ≤ MAX_ADR) :
    0 ≤ gcNum adr ∧ gcNum adr ≤ 99 := by
  have hmin : MIN_ADR = -1718100 := rfl
  have hmax : MAX_ADR = 170091999 := rfl
  have hD : DAYS_per_GRAND_CYCLE = (1718101 : Int) := rfl
  unfold gcNum
  rw [hD]
  rw [hmin] at h1
  rw [hmax] at h2
  omega

/-- The residue handed to the cycle scan is a day number inside the
grand cycle: between 1 and 1718101. -/
theorem r1Of_bounds (adr : Int) :
    1 ≤ r1Of adr ∧ r1Of adr ≤ 1718101 := by
  have hD : DAYS_per_GRAND_CYCLE = (1718101 : Int) := rfl
  unfold r1Of gcNum
  rw [hD]
  omega

/-- The cycle element of an in-range ADR is a cycle number 1..700
containing the residual day. -/
theorem cNum_bounds (adr : Int) :
    1 ≤ cNum adr ∧ cNum adr ≤ 700 ∧
    CycleInGrandCycle.days_prior ⟨cNum adr⟩ < r1Of adr ∧
    r1Of adr ≤ CycleInGrandCycle.days_prior ⟨cNum adr⟩ + 2450 +
      festivalDays (cNum adr) := by
  have hr := r1Of_bounds adr
  exact cycle_decode_containing (r1Of adr) hr.1 hr.2

/-- The residue handed to the season computation is a day number inside
the cycle: between 1 and the cycle's length. -/
theorem r2Of_bounds (adr : Int) :
    1 ≤ r2Of adr ∧ r2Of adr ≤ 2450 + festivalDays (cNum adr) := by
  have hc := cNum_bounds adr
  unfold r2Of
  omega

/-- The season element of an in-range ADR is a season number 1..7. -/
theorem sNum_bounds (adr : Int) :
    1 ≤ sNum adr ∧ sNum adr ≤ 7 := by
  have hr := r2Of_bounds adr
  unfold sNum
  omega

/-- The season stage value, spelled out. -/
theorem sNum_eq (adr : Int) :
    sNum adr = min ((r2Of adr - 1) / 350 + 1) 7 := rfl

/-- The season residue, spelled out. -/
theorem r3Of_eq (adr : Int) :
    r3Of adr = r2Of adr - 350 * (sNum adr - 1) := rfl

/-- The week stage value, spelled out. -/
theorem wNum_eq (adr : Int) :
    wNum adr = min ((r3Of adr - 1) / 7 + 1) 51 := rfl

/-- The final residue, spelled out. -/
theorem r4Of_eq (adr : Int) :
    r4Of adr = r3Of adr - 7 * (wNum adr - 1) := rfl

/-- The week element of an in-range ADR is a regular week 1..50, or
week 51 in season 7. -/
theorem wNum_bounds (adr : Int) :
    (1 ≤ wNum adr ∧ wNum adr ≤ 50) ∨ (wNum adr = 51 ∧ sNum adr = 7) := by
  have hr := r2Of_bounds adr
  rw [wNum_eq, r3Of_eq, sNum_eq]
  rcases festivalDays_cases (cNum adr) with hF | hF | hF <;> rw [hF] at hr <;>
    omega

/-- The day element of an in-range ADR is within the week's day range
(1..7, or up to the cycle's terminal-week length in week 51). -/
theorem r4Of_bounds (adr : Int) :
    1 ≤ r4Of adr ∧ r4Of adr ≤ dayUpperBound ⟨wNum adr⟩ ⟨cNum adr⟩ := by
  have hr := r2Of_bounds adr
  have hub : dayUpperBound ⟨wNum adr⟩ ⟨cNum adr⟩ =
      if wNum adr = 51 then festivalDays (cNum adr) else 7 := rfl
  rw [hub, r4Of_eq, r3Of_eq, wNum_eq, r3Of_eq, sNum_eq]
  rcases festivalDays_cases (cNum adr) with hF | hF | hF <;>
    rw [hF] at hr ⊢ <;> split_ifs with hif <;> omega

/-- An in-range ADR decomposes into exactly the five elements built
from the stage values gcNum, cNum, sNum, wNum, r4Of: every validating
constructor in the chain succeeds. -/
theorem elements_from_adr_eq (adr : Int) (h1 : MIN_ADR ≤ adr)
    (h2 : adr ≤ MAX_ADR) :
    elements_from_adr adr =
      some (⟨gcNum adr⟩, ⟨cNum adr⟩, ⟨sNum adr⟩, ⟨wNum adr⟩,
        ⟨r4Of adr, decide (wNum adr = 51)⟩) := by
  have hg := gcNum_bounds adr h1 h2
  have hc := cNum_bounds adr
  have hs := sNum_bounds adr
  have hw := wNum_bounds adr
  have hd := r4Of_bounds adr
  unfold elements_from_adr
  have e1 : GrandCycle.ofNum (gcNum adr) = some ⟨gcNum adr⟩ := by
    unfold GrandCycle.ofNum
    exact if_pos hg
  have e2 : CycleInGrandCycle.ofNum (cNum adr) = some ⟨cNum adr⟩ := by
    unfold CycleInGrandCycle.ofNum
    exact if_pos ⟨hc.1, hc.2.1⟩
  have e3 : Season.ofNum (sNum adr) = some ⟨sNum adr⟩ := by
    unfold Season.ofNum
    exact if_pos hs
  have e4 : Week.ofNum (wNum adr) ⟨sNum adr⟩ = some ⟨wNum adr⟩ := by
    unfold Week.ofNum
    exact if_pos hw
  have e5 : Day.ofNum (r4Of adr) ⟨wNum adr⟩ ⟨cNum adr⟩ =
      some ⟨r4Of adr, decide (wNum adr = 51)⟩ := by
    unfold Day.ofNum
    exact if_pos hd
  rw [e1, optBind_some, e2, optBind_some, e3, optBind_some, e4,
    optBind_some, e5, optBind_some]

/-- The decomposition stages telescope: summing the days_prior of the
four outer stage elements and the final residue gives back the ADR
(an unconditional algebraic identity of the peeling). -/
theorem recompose_eq (adr : Int) :
    GrandCycle.days_prior ⟨gcNum adr⟩ +
      CycleInGrandCycle.days_prior ⟨cNum adr⟩ +
      Season.days_prior ⟨sNum adr⟩ + Week.days_prior ⟨wNum adr⟩ +
      r4Of adr = adr := by
  have hD : DAYS_per_GRAND_CYCLE = (1718101 : Int) := rfl
  unfold r4Of r3Of r2Of r1Of GrandCycle.days_prior Week.days_prior
    Season.days_prior
  rw [hD]
  ring

/-! The claims. -/

/-- C1: For every integer adr in the valid range [-1718100, 170091999],
decomposing adr into its five date elements (elements_from_adr) succeeds,
and recomposing them by summing each element's days_prior() plus the day
number -- as from_objects does -- yields exactly the original adr;
from_objects itself succeeds and stores that adr. -/
theorem c1_adr_round_trip (adr : Int) (h1 : MIN_ADR ≤ adr)
    (h2 : adr ≤ MAX_ADR) :
    ∃ g c s w d,
      elements_from_adr adr = some (g, c, s, w, d) ∧
      g.days_prior + c.days_prior + s.days_prior + w.days_prior +
        d.number = adr ∧
      CalmarendianDate.from_objects g c s w d =
        Except.ok ⟨adr, g, c, s, w, d⟩ := by
  refine ⟨_, _, _, _, _, elements_from_adr_eq adr h1 h2, ?_, ?_⟩
  · exact recompose_eq adr
  · have hsum : GrandCycle.days_prior ⟨gcNum adr⟩ +
        CycleInGrandCycle.days_prior ⟨cNum adr⟩ +
        Season.days_prior ⟨sNum adr⟩ + Week.days_prior ⟨wNum adr⟩ +
        (Day.mk (r4Of adr) (decide (wNum adr = 51))).number = adr :=
      recompose_eq adr
    unfold CalmarendianDate.from_objects
    rw [hsum]
    have hmin : MIN_ADR = -1718100 := rfl
    have hmax : MAX_ADR = 170091999 := rfl
    rw [if_neg (by omega)]

/-- Witness for C1 at the concrete in-range ADR 1. -/
theorem c1_adr_round_trip_witness :
    MIN_ADR ≤ 1 ∧ (1 : Int) ≤ MAX_ADR ∧
    (∃ g c s w d,
      elements_from_adr 1 = some (g, c, s, w, d) ∧
      g.days_prior + c.days_prior + s.days_prior + w.days_prior +
        d.number = 1 ∧
      CalmarendianDate.from_objects g c s w d =
        Except.ok ⟨1, g, c, s, w, d⟩) :=
  ⟨by decide, by decide, c1_adr_round_trip 1 (by decide) (by decide)⟩

/-- C2 counterexample: at residue 2454 (the last day of cycle 1, whose
cumulative days_prior boundary it meets exactly), the scan worded with
a non-strict comparison returns cycle 2, which does not contain day
2454; the source's cycle_decode, whose comparison is strict, returns
cycle 1, which does (cycle 1 spans days 1..2454). -/
theorem c2_le_scan_counterexample :
    cycleScanLe 2454 = 2 ∧
    ¬ CycleInGrandCycle.days_prior ⟨2⟩ < 2454 ∧
    cycle_decode 2454 = 1 ∧
    CycleInGrandCycle.days_prior ⟨1⟩ < 2454 ∧
    2454 ≤ CycleInGrandCycle.days_prior ⟨1⟩ + 2450 + festivalDays 1 := by
  refine ⟨by decide, by decide, by decide, by decide, by decide⟩

/-- C2 as amended: the cycle is found by estimating
floor(residue / average_cycle_length) and scanning forward while the
next cycle's days_prior() is still STRICTLY BELOW the residue, capped at
cycle 700 (this is cycle_decode); for every residue a grand cycle can
hold, the cycle so found is the cycle containing the residual day. -/
theorem c2_cycle_scan_containing (days : Int) (h1 : 1 ≤ days)
    (h2 : days ≤ 1718101) :
    1 ≤ cycle_decode days ∧ cycle_decode days ≤ 700 ∧
    CycleInGrandCycle.days_prior ⟨cycle_decode days⟩ < days ∧
    days ≤ CycleInGrandCycle.days_prior ⟨cycle_decode days⟩ + 2450 +
      festivalDays (cycle_decode days) :=
  cycle_decode_containing days h1 h2

/-- Witness for C2 at the concrete residue 2454. -/
theorem c2_cycle_scan_containing_witness :
    (1 : Int) ≤ 2454 ∧ (2454 : Int) ≤ 1718101 ∧
    (1 ≤ cycle_decode 2454 ∧ cycle_decode 2454 ≤ 700 ∧
      CycleInGrandCycle.days_prior ⟨cycle_decode 2454⟩ < 2454 ∧
      2454 ≤ CycleInGrandCycle.days_prior ⟨cycle_decode 2454⟩ + 2450 +
        festivalDays (cycle_decode 2454)) :=
  ⟨by decide, by decide, c2_cycle_scan_containing 2454 (by decide) (by decide)⟩

/-- Evaluating a left-padded two-character rendering of every integer
0..99. -/
theorem padl_toString_len :
    ∀ m : Fin 100, (padl 2 '0' (toString ((m : Nat) : Int))).length = 2 := by
  decide

/-- C10: for every ADR in the valid range, the grand cycle number the
decomposition computes lies in [0, 99], so its zero-padded field in
grand_cycle_notation is exactly two characters wide. -/
theorem c10_grand_cycle_two_digits (adr : Int) (g : GrandCycle)
    (c : CycleInGrandCycle) (s : Season) (w : Week) (d : Day)
    (h1 : MIN_ADR ≤ adr) (h2 : adr ≤ MAX_ADR)
    (h : elements_from_adr adr = some (g, c, s, w, d)) :
    (0 ≤ g.number ∧ g.number ≤ 99) ∧
    (padl 2 '0' (toString g.number)).length = 2 := by
  rw [elements_from_adr_eq adr h1 h2] at h
  simp only [Option.some.injEq, Prod.mk.injEq] at h
  obtain ⟨hg, -, -, -, -⟩ := h
  subst hg
  have hb := gcNum_bounds adr h1 h2
  refine ⟨hb, ?_⟩
  have key := padl_toString_len ⟨(gcNum adr).toNat, by omega⟩
  have hcast : (((gcNum adr).toNat : Nat) : Int) = gcNum adr :=
    Int.toNat_of_nonneg hb.1
  rw [hcast] at key
  exact key

/-- Witness for C10 at the concrete ADR 1. -/
theorem c10_grand_cycle_two_digits_witness :
    MIN_ADR ≤ 1 ∧ (1 : Int) ≤ MAX_ADR ∧
    elements_from_adr 1 = some (⟨1⟩, ⟨1⟩, ⟨1⟩, ⟨1⟩, ⟨1, false⟩) ∧
    ((0 ≤ (GrandCycle.mk 1).number ∧ (GrandCycle.mk 1).number ≤ 99) ∧
      (padl 2 '0' (toString (GrandCycle.mk 1).number)).length = 2) :=
  ⟨by decide, by decide, by decide,
    c10_grand_cycle_two_digits 1 ⟨1⟩ ⟨1⟩ ⟨1⟩ ⟨1⟩ ⟨1, false⟩
      (by decide) (by decide) (by decide)⟩

/-- C3 counterexample: the adr property setter is a public operation on
a constructed date that changes its absolute day reference.  Setting
adr 2 on the date of ADR 1 succeeds and yields a date whose adr differs
from the original (and whose stored elements were not re-derived). -/
theorem c3_setter_mutates_counterexample :
    CalmarendianDate.setAdr ⟨1, ⟨1⟩, ⟨1⟩, ⟨1⟩, ⟨1⟩, ⟨1, false⟩⟩
        (PyValue.int 2) =
      Except.ok ⟨2, ⟨1⟩, ⟨1⟩, ⟨1⟩, ⟨1⟩, ⟨1, false⟩⟩ ∧
    (CalmarendianDate.mk 2 ⟨1⟩ ⟨1⟩ ⟨1⟩ ⟨1⟩ ⟨1, false⟩).adr ≠
      (CalmarendianDate.mk 1 ⟨1⟩ ⟨1⟩ ⟨1⟩ ⟨1⟩ ⟨1, false⟩).adr :=
  ⟨rfl, by decide⟩

/-- C3 as amended: the five stored elements are set only at
construction and no operation re-derives them, but the class does
expose the public validating adr setter: assigning any in-range integer
succeeds, overwrites the stored absolute day reference, and leaves the
five stored elements exactly as they were. -/
theorem c3_elements_fixed_adr_resettable (dt : CalmarendianDate)
    (n : Int) (h1 : MIN_ADR ≤ n) (h2 : n ≤ MAX_ADR) :
    CalmarendianDate.setAdr dt (PyValue.int n) =
      Except.ok ⟨n, dt.grand_cycle, dt.cycle, dt.season, dt.week, dt.day⟩ := by
  have hred : CalmarendianDate.setAdr dt (PyValue.int n) =
      if n < MIN_ADR ∨ MAX_ADR < n then
        Except.error CalmarendianDateError.rangeError
      else Except.ok { dt with adr := n } := rfl
  have hmin : MIN_ADR = -1718100 := rfl
  have hmax : MAX_ADR = 170091999 := rfl
  rw [hred, if_neg (by omega)]

/-- Witness for C3 as amended, at a concrete date and value. -/
theorem c3_elements_fixed_witness :
    MIN_ADR ≤ 5 ∧ (5 : Int) ≤ MAX_ADR ∧
    CalmarendianDate.setAdr ⟨1, ⟨1⟩, ⟨1⟩, ⟨1⟩, ⟨1⟩, ⟨1, false⟩⟩
        (PyValue.int 5) =
      Except.ok ⟨5, ⟨1⟩, ⟨1⟩, ⟨1⟩, ⟨1⟩, ⟨1, false⟩⟩ :=
  ⟨by decide, by decide,
    c3_elements_fixed_adr_resettable ⟨1, ⟨1⟩, ⟨1⟩, ⟨1⟩, ⟨1⟩, ⟨1, false⟩⟩ 5
      (by decide) (by decide)⟩

/-- C4 counterexample: the non-integral float 7/2 (it lies strictly
between 3 and 4) is not rejected: int() truncates it and construction
succeeds, producing the date of ADR 3. -/
theorem c4_nonintegral_accepted_counterexample :
    (3 : ℚ) < (7 : ℚ) / 2 ∧ (7 : ℚ) / 2 < 4 ∧
    CalmarendianDate.fromValue (PyValue.float ((7 : ℚ) / 2)) =
      Except.ok ⟨3, ⟨1⟩, ⟨1⟩, ⟨1⟩, ⟨1⟩, ⟨3, false⟩⟩ := by
  refine ⟨by norm_num, by norm_num, ?_⟩
  have hq : pyInt (PyValue.float ((7 : ℚ) / 2)) = Except.ok 3 := by
    show Except.ok
        (if ((7 : ℚ) / 2) < 0 then ⌈(7 : ℚ) / 2⌉ else ⌊(7 : ℚ) / 2⌋) =
      Except.ok 3
    rw [if_neg (by norm_num)]
    norm_num
  unfold CalmarendianDate.fromValue
  rw [hq]
  rfl

/-- C4 as amended: construction succeeds exactly when int() conversion
succeeds (non-integral numbers are truncated toward zero rather than
rejected, and numeric strings parse) and the converted integer lies in
[MIN_ADR, MAX_ADR]; in particular MIN_ADR and MAX_ADR construct
successfully while MIN_ADR - 1 and MAX_ADR + 1 are rejected with the
range error. -/
theorem c4_construction_acceptance :
    (∀ v : PyValue, okBool (CalmarendianDate.fromValue v) = true ↔
      ∃ n : Int, pyInt v = Except.ok n ∧ MIN_ADR ≤ n ∧ n ≤ MAX_ADR) ∧
    okBool (CalmarendianDate.fromValue (PyValue.int MIN_ADR)) = true ∧
    okBool (CalmarendianDate.fromValue (PyValue.int MAX_ADR)) = true ∧
    CalmarendianDate.fromValue (PyValue.int (MIN_ADR - 1)) =
      Except.error CalmarendianDateError.rangeError ∧
    CalmarendianDate.fromValue (PyValue.int (MAX_ADR + 1)) =
      Except.error CalmarendianDateError.rangeError := by
  refine ⟨?_, rfl, rfl, rfl, rfl⟩
  intro v
  constructor
  · intro hok
    cases hp : pyInt v with
    | error e =>
      have hfv : CalmarendianDate.fromValue v = Except.error e := by
        unfold CalmarendianDate.fromValue
        rw [hp]
      rw [hfv] at hok
      exact absurd hok (by simp [okBool])
    | ok n =>
      have hfv : CalmarendianDate.fromValue v = fromAdr n := by
        unfold CalmarendianDate.fromValue
        rw [hp]
      rw [hfv] at hok
      by_cases hr : n < MIN_ADR ∨ MAX_ADR < n
      · unfold fromAdr at hok
        rw [if_pos hr] at hok
        exact absurd hok (by simp [okBool])
      · push_neg at hr
        exact ⟨n, rfl, hr.1, hr.2⟩
  · rintro ⟨n, hn, hmin, hmax⟩
    have hfv : CalmarendianDate.fromValue v = fromAdr n := by
      unfold CalmarendianDate.fromValue
      rw [hn]
    rw [hfv]
    unfold fromAdr
    have e1 : MIN_ADR = -1718100 := rfl
    have e2 : MAX_ADR = 170091999 := rfl
    rw [if_neg (by omega), elements_from_adr_eq n hmin hmax]
    rfl

/-- Witness for C4 as amended, applying the acceptance criterion at the
concrete value 0. -/
theorem c4_construction_acceptance_witness :
    okBool (CalmarendianDate.fromValue (PyValue.int 0)) = true :=
  (c4_construction_acceptance.1 (PyValue.int 0)).mpr
    ⟨0, rfl, by decide, by decide⟩

/-- C5: for any five valid date element objects, from_objects succeeds
and the ADR of the date built from them is exactly
grand_cycle.days_prior() + cycle.days_prior() + season.days_prior() +
week.days_prior() + day.number. -/
theorem c5_compose_additive (g : GrandCycle) (c : CycleInGrandCycle)
    (s : Season) (w : Week) (d : Day)
    (hg : 0 ≤ g.number ∧ g.number ≤ 99)
    (hc : 1 ≤ c.number ∧ c.number ≤ 700)
    (hs : 1 ≤ s.number ∧ s.number ≤ 7)
    (hw : (1 ≤ w.number ∧ w.number ≤ 50) ∨ (w.number = 51 ∧ s.number = 7))
    (hd : 1 ≤ d.number ∧ d.number ≤ dayUpperBound w c) :
    CalmarendianDate.from_objects g c s w d =
      Except.ok ⟨g.days_prior + c.days_prior + s.days_prior +
        w.days_prior + d.number, g, c, s, w, d⟩ := by
  have hub : dayUpperBound w c ≤ 8 := by
    unfold dayUpperBound festivalDays
    split_ifs <;> omega
  have hrange : ¬(g.days_prior + c.days_prior + s.days_prior +
      w.days_prior + d.number < MIN_ADR ∨
      MAX_ADR < g.days_prior + c.days_prior + s.days_prior +
        w.days_prior + d.number) := by
    have e1 : g.days_prior = (g.number - 1) * 1718101 := rfl
    have e2 : c.days_prior = 2454 * (c.number - 1) +
        3 * ((c.number - 1) / 7) := rfl
    have e3 : s.days_prior = 350 * (s.number - 1) := rfl
    have e4 : w.days_prior = 7 * (w.number - 1) := rfl
    have hmin : MIN_ADR = -1718100 := rfl
    have hmax : MAX_ADR = 170091999 := rfl
    rw [e1, e2, e3, e4, hmin, hmax]
    omega
  unfold CalmarendianDate.from_objects
  rw [if_neg hrange]

/-- Witness for C5 at a concrete valid five-tuple (the first day of the
calendar). -/
theorem c5_compose_additive_witness :
    CalmarendianDate.from_objects ⟨1⟩ ⟨1⟩ ⟨1⟩ ⟨1⟩ ⟨1, false⟩ =
      Except.ok ⟨(GrandCycle.mk 1).days_prior +
        (CycleInGrandCycle.mk 1).days_prior + (Season.mk 1).days_prior +
        (Week.mk 1).days_prior + (Day.mk 1 false).number,
        ⟨1⟩, ⟨1⟩, ⟨1⟩, ⟨1⟩, ⟨1, false⟩⟩ :=
  c5_compose_additive ⟨1⟩ ⟨1⟩ ⟨1⟩ ⟨1⟩ ⟨1, false⟩ (by decide) (by decide)
    (by decide) (by decide) (by decide)

/-- C6: for every CalmarendianDate, absolute_cycle_ref() returns the
pair (acr, era) where acr = |(grand_cycle - 1) * 700 + cycle| is the
unsigned (nonnegative) cycle count from Cycle Zero, and the era marker
is BZ when the grand cycle number is at most 0, otherwise BH when acr
is in [1, 500], and CE otherwise. -/
theorem c6_absolute_cycle_ref (dt : CalmarendianDate) :
    CalmarendianDate.absolute_cycle_ref dt =
      (|(dt.grand_cycle.number - 1) * 700 + dt.cycle.number|,
        if dt.grand_cycle.number ≤ 0 then EraMarker.BZ
        else if 1 ≤ |(dt.grand_cycle.number - 1) * 700 + dt.cycle.number| ∧
            |(dt.grand_cycle.number - 1) * 700 + dt.cycle.number| ≤ 500 then
          EraMarker.BH
        else EraMarker.CE) ∧
    0 ≤ (CalmarendianDate.absolute_cycle_ref dt).1 :=
  ⟨rfl, abs_nonneg _⟩

/-- The adr stored by a successful construction from an integer is that
integer. -/
theorem fromValue_int_adr (a : Int) (dt : CalmarendianDate)
    (h : CalmarendianDate.fromValue (PyValue.int a) = Except.ok dt) :
    dt.adr = a := by
  have hfv : CalmarendianDate.fromValue (PyValue.int a) = fromAdr a := rfl
  rw [hfv] at h
  unfold fromAdr at h
  by_cases hr : a < MIN_ADR ∨ MAX_ADR < a
  · rw [if_pos hr] at h
    simp at h
  · rw [if_neg hr] at h
    cases he : elements_from_adr a with
    | none =>
      rw [he] at h
      simp at h
    | some t =>
      obtain ⟨g, c, s, w, d⟩ := t
      rw [he] at h
      injection h with h'
      rw [← h']

/-- C9: equality and ordering of CalmarendianDate values are determined
solely by the ADR (the __eq__ and __lt__ comparisons read only adr),
and consequently any two dates constructed from ADRs adr1 < adr2
satisfy date1 < date2. -/
theorem c9_order_by_adr :
    (∀ d1 d2 : CalmarendianDate,
      (CalmarendianDate.pyEq d1 d2 = true ↔ d1.adr = d2.adr) ∧
      (CalmarendianDate.pyLt d1 d2 = true ↔ d1.adr < d2.adr)) ∧
    (∀ (a1 a2 : Int) (d1 d2 : CalmarendianDate),
      CalmarendianDate.fromValue (PyValue.int a1) = Except.ok d1 →
      CalmarendianDate.fromValue (PyValue.int a2) = Except.ok d2 →
      a1 < a2 → CalmarendianDate.pyLt d1 d2 = true) := by
  constructor
  · intro d1 d2
    constructor
    · unfold CalmarendianDate.pyEq
      exact beq_iff_eq
    · unfold CalmarendianDate.pyLt
      exact decide_eq_true_iff
  · intro a1 a2 d1 d2 h1 h2 hlt
    have e1 : d1.adr = a1 := fromValue_int_adr a1 d1 h1
    have e2 : d2.adr = a2 := fromValue_int_adr a2 d2 h2
    unfold CalmarendianDate.pyLt
    rw [e1, e2]
    exact decide_eq_true hlt

/-- Witness for C9 at the concrete ADR pair 1 < 2. -/
theorem c9_order_by_adr_witness :
    CalmarendianDate.fromValue (PyValue.int 1) =
      Except.ok ⟨1, ⟨1⟩, ⟨1⟩, ⟨1⟩, ⟨1⟩, ⟨1, false⟩⟩ ∧
    CalmarendianDate.fromValue (PyValue.int 2) =
      Except.ok ⟨2, ⟨1⟩, ⟨1⟩, ⟨1⟩, ⟨1⟩, ⟨2, false⟩⟩ ∧
    (1 : Int) < 2 ∧
    CalmarendianDate.pyLt ⟨1, ⟨1⟩, ⟨1⟩, ⟨1⟩, ⟨1⟩, ⟨1, false⟩⟩
      ⟨2, ⟨1⟩, ⟨1⟩, ⟨1⟩, ⟨1⟩, ⟨2, false⟩⟩ = true :=
  ⟨rfl, rfl, by decide,
    c9_order_by_adr.2 1 2 _ _ rfl rfl (by decide)⟩

/-- A character in the digit class 0-9 is not the hyphen. -/
theorem isD09_ne_hyphen (ch : Char) (h : isD09 ch = true) : ¬ ch = '-' := by
  intro he
  rw [he] at h
  exact absurd h (by decide)

/-- C7 counterexample: the string 7-7-07-1, whose ACR field is the
single digit 7 (season 7, week 07, day 1, no era marker), does not
match the CSN pattern: the ACR group [1-9]?[0-9]{3} requires at least
three digits. -/
theorem c7_one_digit_acr_counterexample :
    csnMatch (String.data ("7-7-07-1")) = false := by decide

/-- C7 as amended: the CSN pattern accepts ACR fields of exactly three
digits, or exactly four digits whose first digit is 1-9: every string
ACR-S-WW-D with such an ACR, season 1-7, week 00-59, day 1-8, and any
suffix accepted by the space-and-optional-era tail (including the empty
suffix) matches the pattern. -/
theorem c7_csn_acr_three_or_four_digits
    (a b c s w1 w2 d : Char) (era : List Char)
    (ha : isD09 a = true) (hb : isD09 b = true) (hc : isD09 c = true)
    (hs : isD17 s = true) (hw1 : isD05 w1 = true) (hw2 : isD09 w2 = true)
    (hd : isD18 d = true) (hera : csnEnd era = true) :
    csnMatch (a :: b :: c :: '-' :: s :: '-' :: w1 :: w2 :: '-' :: d ::
      era) = true ∧
    (∀ a0 : Char, isD19 a0 = true →
      csnMatch (a0 :: a :: b :: c :: '-' :: s :: '-' :: w1 :: w2 :: '-' ::
        d :: era) = true) := by
  have htail : csnTailFromSeason (s :: '-' :: w1 :: w2 :: '-' :: d :: era) =
      (isD17 s && ('-' == '-') && isD05 w1 && isD09 w2 && ('-' == '-') &&
        isD18 d && csnEnd era) := rfl
  rw [hs, hw1, hw2, hd, hera] at htail
  simp only [Bool.and_true, Bool.true_and] at htail
  constructor
  · have hm : csnMatch (a :: b :: c :: '-' :: s :: '-' :: w1 :: w2 :: '-' ::
        d :: era) =
        (isD09 a && isD09 b && isD09 c &&
          csnTailFromSeason (s :: '-' :: w1 :: w2 :: '-' :: d :: era)) := rfl
    rw [hm, ha, hb, hc, htail]
    decide
  · intro a0 h0
    have hm : csnMatch (a0 :: a :: b :: c :: '-' :: s :: '-' :: w1 :: w2 ::
        '-' :: d :: era) =
        (if c = '-' then
          isD09 a0 && isD09 a && isD09 b &&
            csnTailFromSeason ('-' :: s :: '-' :: w1 :: w2 :: '-' :: d :: era)
        else (('-' == '-') && isD19 a0 && isD09 a && isD09 b && isD09 c &&
          csnTailFromSeason (s :: '-' :: w1 :: w2 :: '-' :: d :: era))) := rfl
    rw [hm, if_neg (isD09_ne_hyphen c hc), h0, ha, hb, hc, htail]
    rfl

/-- Witness for C7 as amended at the concrete CSN strings 777-7-07-1 CE
and 1777-7-07-1 CE. -/
theorem c7_csn_acr_witness :
    isD09 '7' = true ∧ isD17 '7' = true ∧ isD05 '0' = true ∧
    isD18 '1' = true ∧ isD19 '1' = true ∧
    csnEnd ([' ', 'C', 'E']) = true ∧
    csnMatch ('7' :: '7' :: '7' :: '-' :: '7' :: '-' :: '0' :: '7' ::
      '-' :: '1' :: [' ', 'C', 'E']) = true ∧
    csnMatch ('1' :: '7' :: '7' :: '7' :: '-' :: '7' :: '-' :: '0' :: '7' ::
      '-' :: '1' :: [' ', 'C', 'E']) = true :=
  ⟨by decide, by decide, by decide, by decide, by decide, by decide,
    (c7_csn_acr_three_or_four_digits '7' '7' '7' '7' '0' '7' '1'
      ([' ', 'C', 'E']) (by decide) (by decide) (by decide) (by decide)
      (by decide) (by decide) (by decide) (by decide)).1,
    (c7_csn_acr_three_or_four_digits '7' '7' '7' '7' '0' '7' '1'
      ([' ', 'C', 'E']) (by decide) (by decide) (by decide) (by decide)
      (by decide) (by decide) (by decide) (by decide)).2 '1' (by decide)⟩

/-- Appending strings appends their character data. -/
theorem strData_append (s t : String) : (s ++ t).data = s.data ++ t.data := by
  cases s
  cases t
  rfl

/-- C8: colloquial_date renders a week-51 date in the terminal form
day-name ++ " of " ++ acr ++ era-suffix -- the "Week N of Season"
clause is omitted -- while a date of any week 1..50 renders to a string
containing the day name, the week number and the season name. -/
theorem c8_colloquial_week51 (dt : CalmarendianDate)
    (em_arg : Option String) (vb : Bool) :
    (dt.week.number = 51 →
      CalmarendianDate.colloquial_date dt em_arg vb =
        (if vb then Day.dayLabel dt.day else Day.dayShortLabel dt.day) ++
          " of " ++ toString (CalmarendianDate.absolute_cycle_ref dt).1 ++
          eraSuffix (CalmarendianDate.absolute_cycle_ref dt).2 em_arg vb) ∧
    (1 ≤ dt.week.number ∧ dt.week.number ≤ 50 →
      (∃ p q, (CalmarendianDate.colloquial_date dt em_arg vb).data =
        p ++ (Day.dayLabel dt.day).data ++ q) ∧
      (∃ p q, (CalmarendianDate.colloquial_date dt em_arg vb).data =
        p ++ (toString dt.week.number).data ++ q) ∧
      (∃ p q, (CalmarendianDate.colloquial_date dt em_arg vb).data =
        p ++ (Season.seasonLabel dt.season).data ++ q)) := by
  have hred : CalmarendianDate.colloquial_date dt em_arg vb =
      if dt.week.number = 51 then
        (if vb then Day.dayLabel dt.day else Day.dayShortLabel dt.day) ++
          " of " ++ toString (CalmarendianDate.absolute_cycle_ref dt).1 ++
          eraSuffix (CalmarendianDate.absolute_cycle_ref dt).2 em_arg vb
      else
        Day.dayLabel dt.day ++ (if vb then (" of") else (",")) ++ " Week " ++
          toString dt.week.number ++ " of " ++ Season.seasonLabel dt.season ++
          " " ++ toString (CalmarendianDate.absolute_cycle_ref dt).1 ++
          eraSuffix (CalmarendianDate.absolute_cycle_ref dt).2 em_arg vb :=
    rfl
  constructor
  · intro h51
    rw [hred, if_pos h51]
  · intro hw
    have hne : ¬ dt.week.number = 51 := by omega
    rw [hred, if_neg hne]
    refine ⟨⟨[], ((if vb then (" of") else (",")) ++ " Week " ++
        toString dt.week.number ++ " of " ++ Season.seasonLabel dt.season ++
        " " ++ toString (CalmarendianDate.absolute_cycle_ref dt).1 ++
        eraSuffix (CalmarendianDate.absolute_cycle_ref dt).2 em_arg vb).data,
        ?_⟩,
      ⟨(Day.dayLabel dt.day ++ (if vb then (" of") else (",")) ++ " Week ").data,
        (" of " ++ Season.seasonLabel dt.season ++ " " ++
          toString (CalmarendianDate.absolute_cycle_ref dt).1 ++
          eraSuffix (CalmarendianDate.absolute_cycle_ref dt).2 em_arg vb).data,
        ?_⟩,
      ⟨(Day.dayLabel dt.day ++ (if vb then (" of") else (",")) ++ " Week " ++
          toString dt.week.number ++ " of ").data,
        (" " ++ toString (CalmarendianDate.absolute_cycle_ref dt).1 ++
          eraSuffix (CalmarendianDate.absolute_cycle_ref dt).2 em_arg vb).data,
        ?_⟩⟩ <;>
      simp only [strData_append, List.append_assoc, List.nil_append]

/-- Witness for C8 at a concrete week-51 date (the first terminal-week
day of cycle 1) and a concrete week-15 date. -/
theorem c8_colloquial_week51_witness :
    (CalmarendianDate.mk 2451 ⟨1⟩ ⟨1⟩ ⟨7⟩ ⟨51⟩ ⟨1, true⟩).week.number = 51 ∧
    CalmarendianDate.colloquial_date
        ⟨2451, ⟨1⟩, ⟨1⟩, ⟨7⟩, ⟨51⟩, ⟨1, true⟩⟩ none false =
      (if false then Day.dayLabel ⟨1, true⟩ else Day.dayShortLabel ⟨1, true⟩)
        ++ " of " ++
        toString (CalmarendianDate.absolute_cycle_ref
          ⟨2451, ⟨1⟩, ⟨1⟩, ⟨7⟩, ⟨51⟩, ⟨1, true⟩⟩).1 ++
        eraSuffix (CalmarendianDate.absolute_cycle_ref
          ⟨2451, ⟨1⟩, ⟨1⟩, ⟨7⟩, ⟨51⟩, ⟨1, true⟩⟩).2 none false :=
  ⟨rfl, (c8_colloquial_week51 ⟨2451, ⟨1⟩, ⟨1⟩, ⟨7⟩, ⟨51⟩, ⟨1, true⟩⟩
    none false).1 rfl⟩

end Calmarendian
